import Mathlib

/-! Verification development for the comparison engine.

Shallow embedding of the comparison engine in `src/excel_compare.py`
(module `excel_compare`), together with theorems checking the
natural-language specification against it.

Modelling conventions:
* Cell values (`pandas` scalars) are `Value`: `na` covers `NaN`/`None`
  (anything `pd.isna` accepts), `int` covers the numeric case with the
  integer rendering `str(n)`, `str` covers text.  Python's `str.strip`
  is embedded as `pyStrip` over the character list, and Python's
  code-point string ordering (used by `sorted`) as `strLeB`.
* A `Table` stands for a `pandas.DataFrame`: an ordered column list and
  rows of values; `Table.cell` is `df[col].iloc[i]` (totalised with
  `Value.na`, the source only evaluates it for columns present and
  row indices in range).
* The Python `dict` built by `_build_key_to_row_index` is an
  insertion-ordered association list with unique keys; `dict.get` is
  `List.lookup`.
* `round(x, 2)` on Python floats is modelled exactly over `ℚ` by
  `pyRound2`; float rounding error and the half-to-even tie rule are
  abstracted, which no claim here depends on.
* The per-row body of the comparison loop in `compare_excel_files` is
  factored into `compare_row`; the loop only appends to the result
  lists and increments the cell counter, so the loop is the
  concatenation / sum of the per-row contributions in row order.
-/

namespace ExcelCompare

/-- Cell value of a table: missing (`NaN`/`None`), integer numeric, or text. -/
inductive Value where
  | na : Value
  | int : Int → Value
  | str : String → Value
deriving Repr, DecidableEq

/-- Characters removed by Python `str.strip()` (ASCII whitespace). -/
def pyWhitespaceChar (c : Char) : Bool :=
  c = ' ' || c = '\t' || c = '\n' || c = '\r' || c = Char.ofNat 11 || c = Char.ofNat 12

/-- Python `s.strip()`: drop leading and trailing whitespace. -/
def pyStrip (s : String) : String :=
  ⟨((s.data.dropWhile pyWhitespaceChar).reverse.dropWhile pyWhitespaceChar).reverse⟩

/-- Python `str(value)` for the raw (un-normalized) value, used for display. -/
def pyStr : Value → String
  | .na => "nan"
  | .int n => toString n
  | .str s => s

/-- Embedding of `_normalize_value` (excel_compare.py lines 121-127):
`NaN`-like values go to `""`, numerics to `str(val).strip()`, text to
`str(val).strip()`. -/
def normalize_value : Value → String
  | .na => ""
  | .int n => pyStrip (toString n)
  | .str s => pyStrip s

/-- Table (a `pandas.DataFrame`): ordered named columns and rows of values,
each row a list parallel to `columns`. -/
structure Table where
  columns : List String
  rows : List (List Value)
deriving Repr, DecidableEq

/-- Cell access `df[col].iloc[i]`, totalised with `Value.na`; every use in
the source has `col` present and `i` in range. -/
def Table.cell (t : Table) (col : String) (i : Nat) : Value :=
  match t.columns.indexOf? col with
  | none => Value.na
  | some j => (t.rows.getD i []).getD j Value.na

/-- Embedding of `_row_key`: tuple of normalized key-column values of row `i`. -/
def row_key (df : Table) (key_columns : List String) (i : Nat) : List String :=
  key_columns.map (fun col => normalize_value (df.cell col i))

/-- Embedding of `_row_key_display`: `"col=val"` parts joined by `", "` for a
composite key, else `str` of the single key value. -/
def row_key_display (df : Table) (key_columns : List String) (i : Nat) : String :=
  let parts := key_columns.map (fun col => col ++ "=" ++ pyStr (df.cell col i))
  if parts.length > 1 then String.intercalate ", " parts
  else pyStr (df.cell (key_columns.getD 0 "") i)

/-- Loop of `_build_key_to_row_index`: insert `(key, i)` only when the key is
not yet present, preserving insertion order. -/
def build_key_to_row_index_go (df : Table) (key_columns : List String) :
    List Nat → List (List String × Nat) → List (List String × Nat)
  | [], out => out
  | i :: rest, out =>
    let k := row_key df key_columns i
    build_key_to_row_index_go df key_columns rest
      (if (out.lookup k).isSome then out else out ++ [(k, i)])

/-- Embedding of `_build_key_to_row_index` (lines 141-151): empty mapping when
a key column is missing, else first-occurrence-wins keyed rows. -/
def build_key_to_row_index (df : Table) (key_columns : List String) :
    List (List String × Nat) :=
  let missing := key_columns.filter (fun c => !df.columns.contains c)
  if missing ≠ [] then []
  else build_key_to_row_index_go df key_columns (List.range df.rows.length) []

/-- Module constant `KEY_COLUMN`. -/
def KEY_COLUMN : String := "Purchasing document number"

/-- Module constant `COMPARE_COLUMNS`: the static compare-registry. -/
def COMPARE_COLUMNS : List String := [
  "Purchasing document number",
  "0GN_VENDOR",
  "Purchasing Document Type",
  "Puchasing document category",
  "Source System for R/3 Entity",
  "Invoicing Party",
  "Logical System Backend",
  "Status of purchasing document",
  "Purchasing Organization",
  "Purchasing Group",
  "Source system ID",
  "Supplying Plant",
  "0VENDOR",
  "Purchase Document Date",
  "Date on which the purchasing document wa",
  "Fiscal year / period",
  "Fiscal year variant",
  "Fiscal year",
  "Posting Date in the Document",
  "Update Date",
  "Validity period end",
  "Validity Period Start",
  "Calendar Day Number",
  "Calender Week - Saturday",
  "Calender Week - Sunday",
  "Calendar Week Number",
  "Document Currency",
  "Purchase Order Currency",
  "Company Code",
  "Name of person who created the object",
  "Date on which the record was created",
  "Transaction for purchasing document",
  "Logical System",
  "Ordering address",
  "Vendor to whom partner roles are assigne",
  "Goods Supplier",
  "Supplying vendor",
  "Supplying plant to which partner roles h",
  "Released Date",
  "Released By",
  "PO release indicator",
  "PO release status",
  "Number of deliveries",
  "Exchange rate for pricing and statistics",
  "No. of invoices",
  "Counter for documents",
  "Re-Release Count",
  "Total value at the time of Release"]

/-- Sentinel used for B-side values of rows missing from File 2. -/
def missingSentinel : String := "(missing in File 2)"

/-- Embedding of the `CellDifference` dataclass. -/
structure CellDifference where
  row_index : Nat
  column : String
  value_file1 : Value
  value_file2 : Value
  excel_row : Nat
  excel_row_file2 : Option Nat
  key_value : String
deriving Repr, DecidableEq

/-- One crosstab cell `{column, file1, file2, is_difference}`. -/
structure CrosstabCell where
  column : String
  file1 : Value
  file2 : Value
  is_difference : Bool
deriving Repr, DecidableEq

/-- One crosstab entry `{key_value, excel_row_file1, excel_row_file2, rows}`. -/
structure KeyCrosstab where
  key_value : String
  excel_row_file1 : Nat
  excel_row_file2 : Option Nat
  rows : List CrosstabCell
deriving Repr, DecidableEq

/-- Embedding of the `ComparisonResult` dataclass (fields and defaults). -/
structure ComparisonResult where
  differences : List CellDifference := []
  columns_only_in_file1 : List String := []
  columns_only_in_file2 : List String := []
  common_columns : List String := []
  rows_file1 : Nat := 0
  rows_file2 : Nat := 0
  cells_compared : Nat := 0
  total_differences : Nat := 0
  sheet_name_file1 : String := ""
  sheet_name_file2 : String := ""
  key_column : String := KEY_COLUMN
  keys_only_in_file1 : List String := []
  keys_only_in_file2 : List String := []
  error : Option String := none
  columns_compared : List String := []
  requested_columns_missing_in_file1 : List String := []
  requested_columns_missing_in_file2 : List String := []
  key_crosstabs : List KeyCrosstab := []
deriving Repr, DecidableEq

/-- Python `round(x, 2)` over exact rationals. -/
def pyRound2 (x : ℚ) : ℚ := (round (x * 100) : ℚ) / 100

/-- Embedding of the `match_percentage` property (lines 99-103). -/
def ComparisonResult.match_percentage (r : ComparisonResult) : ℚ :=
  if r.cells_compared = 0 then 100
  else pyRound2 (100 * (1 - (r.total_differences : ℚ) / (r.cells_compared : ℚ)))

/-- Default handling of the `key_columns` argument (lines 165-166). -/
def effective_key_columns : Option (List String) → List String
  | none => [KEY_COLUMN]
  | some ks => if ks.length = 0 then [KEY_COLUMN] else ks

/-- Single-quote character, for Python `repr` of strings. -/
def pyQuote : String := ⟨[Char.ofNat 39]⟩

/-- Python `repr` of a string as interpolated into messages (quoting only;
escape sequences inside the text are not modelled). -/
def pyStrRepr (s : String) : String := pyQuote ++ s ++ pyQuote

/-- Python `str` of a list of strings, e.g. `['a', 'b']`. -/
def pyListRepr (l : List String) : String :=
  "[" ++ String.intercalate ", " (l.map pyStrRepr) ++ "]"

/-- Python `str` of a tuple of strings; 1-tuples render with a trailing comma. -/
def pyTupleRepr (k : List String) : String :=
  if k.length = 1 then "(" ++ String.intercalate ", " (k.map pyStrRepr) ++ ",)"
  else "(" ++ String.intercalate ", " (k.map pyStrRepr) ++ ")"

/-- Lexicographic comparison of character lists by code point, the order
Python `sorted` uses on strings. -/
def strLeAux : List Char → List Char → Bool
  | [], _ => true
  | _ :: _, [] => false
  | a :: as, b :: bs =>
    if a.toNat < b.toNat then true
    else if a.toNat = b.toNat then strLeAux as bs
    else false

/-- Python string ordering (code-point lexicographic). -/
def strLeB (a b : String) : Bool := strLeAux a.data b.data

/-- Python string ordering as a relation. -/
def pyStrLe (a b : String) : Prop := strLeB a b = true

instance : DecidableRel pyStrLe :=
  fun a b => inferInstanceAs (Decidable (strLeB a b = true))

instance : IsTotal String pyStrLe := by
  constructor
  intro a b
  have aux : ∀ as bs : List Char, strLeAux as bs = true ∨ strLeAux bs as = true := by
    intro as
    induction as with
    | nil =>
      intro bs
      left
      rfl
    | cons a2 as2 ih =>
      intro bs
      cases bs with
      | nil =>
        right
        rfl
      | cons b2 bs2 =>
        simp only [strLeAux]
        rcases Nat.lt_trichotomy a2.toNat b2.toNat with hlt | heq | hgt
        · left
          simp [hlt]
        · simp [heq]
          exact ih bs2
        · right
          simp [hgt]
  exact aux a.data b.data

instance : IsTrans String pyStrLe := by
  constructor
  intro a b c hab hbc
  have aux : ∀ as bs cs : List Char, strLeAux as bs = true → strLeAux bs cs = true →
      strLeAux as cs = true := by
    intro as
    induction as with
    | nil =>
      intro bs cs _ _
      rfl
    | cons a2 as2 ih =>
      intro bs cs h1 h2
      cases bs with
      | nil => simp [strLeAux] at h1
      | cons b2 bs2 =>
        cases cs with
        | nil => simp [strLeAux] at h2
        | cons c2 cs2 =>
          simp only [strLeAux] at h1 h2 ⊢
          by_cases hab1 : a2.toNat < b2.toNat
          · by_cases hbc1 : b2.toNat < c2.toNat
            · simp [Nat.lt_trans hab1 hbc1]
            · by_cases hbc2 : b2.toNat = c2.toNat
              · have hac : a2.toNat < c2.toNat := by omega
                simp [hac]
              · simp [hbc1, hbc2] at h2
          · by_cases hab2 : a2.toNat = b2.toNat
            · simp [hab1, hab2] at h1
              by_cases hbc1 : b2.toNat < c2.toNat
              · have hac : a2.toNat < c2.toNat := by omega
                simp [hac]
              · by_cases hbc2 : b2.toNat = c2.toNat
                · simp [hbc1, hbc2] at h2
                  have hac1 : ¬ a2.toNat < c2.toNat := by omega
                  have hac2 : a2.toNat = c2.toNat := by omega
                  simp [hac1, hac2]
                  exact ih bs2 cs2 h1 h2
                · simp [hbc1, hbc2] at h2
            · simp [hab1, hab2] at h1
  exact aux a.data b.data c.data hab hbc

/-- Python `sorted` on a list of strings (a stable ascending sort). -/
def pySorted (l : List String) : List String := l.insertionSort pyStrLe

/-- Outcome of processing one File 1 row in the main loop: cells-compared
increments, appended differences, and the optional crosstab entry. -/
structure RowOutcome where
  cells : Nat
  diffs : List CellDifference
  crosstab : Option KeyCrosstab
deriving Repr, DecidableEq

/-- Body of the per-row loop of `compare_excel_files` (lines 210-274) for row
`i` of File 1: unmatched rows report every compared column as a difference
against the sentinel and always get a crosstab entry; matched rows diff each
compared column by normalized value and get a crosstab entry only when some
cell differs.  The counter increments once per compared column in either
branch. -/
def compare_row (df1 df2 : Table) (key_columns compare_columns : List String)
    (key_to_row2 : List (List String × Nat)) (i : Nat) : RowOutcome :=
  let key_tuple := row_key df1 key_columns i
  let j? := key_to_row2.lookup key_tuple
  let key_val := row_key_display df1 key_columns i
  let excel_row_file1 := i + 2
  match j? with
  | none =>
    let crosstab_rows : List CrosstabCell := compare_columns.map (fun col =>
      { column := col, file1 := df1.cell col i, file2 := Value.str missingSentinel,
        is_difference := true })
    let diffs : List CellDifference := compare_columns.map (fun col =>
      { row_index := i, column := col, value_file1 := df1.cell col i,
        value_file2 := Value.str missingSentinel, excel_row := excel_row_file1,
        excel_row_file2 := none, key_value := key_val })
    let entry : KeyCrosstab :=
      { key_value := key_val, excel_row_file1 := excel_row_file1,
        excel_row_file2 := none, rows := crosstab_rows }
    { cells := compare_columns.length, diffs := diffs, crosstab := some entry }
  | some j =>
    let excel_row_file2 := j + 2
    let crosstab_rows : List CrosstabCell := compare_columns.map (fun col =>
      { column := col, file1 := df1.cell col i, file2 := df2.cell col j,
        is_difference := normalize_value (df1.cell col i) != normalize_value (df2.cell col j) })
    let diffs : List CellDifference := (compare_columns.filter (fun col =>
        normalize_value (df1.cell col i) != normalize_value (df2.cell col j))).map (fun col =>
      { row_index := i, column := col, value_file1 := df1.cell col i,
        value_file2 := df2.cell col j, excel_row := excel_row_file1,
        excel_row_file2 := some excel_row_file2, key_value := key_val })
    let entry : KeyCrosstab :=
      { key_value := key_val, excel_row_file1 := excel_row_file1,
        excel_row_file2 := some excel_row_file2, rows := crosstab_rows }
    { cells := compare_columns.length, diffs := diffs,
      crosstab := if crosstab_rows.any (fun c => c.is_difference) then some entry else none }

/-- Effective compared-column list (lines 192-194, 197): registry columns
present in both files, reordered by File 1 column order. -/
def columns_compared_of (df1 df2 : Table) : List String :=
  let requested_in_both := COMPARE_COLUMNS.filter (fun c =>
    df1.columns.contains c && df2.columns.contains c)
  df1.columns.filter (fun c => requested_in_both.contains c)

/-- Per-row outcomes of the main loop, in File 1 row order. -/
def row_outcomes (df1 df2 : Table) (key_columns : List String) : List RowOutcome :=
  (List.range df1.rows.length).map
    (compare_row df1 df2 key_columns (columns_compared_of df1 df2)
      (build_key_to_row_index df2 key_columns))

/-- Set of normalized composite keys of File 1 rows (line 201-203, a Python
set embedded as a deduplicated list). -/
def keys_in_file1_of (df1 : Table) (key_columns : List String) : List (List String) :=
  ((List.range df1.rows.length).map (fun i => row_key df1 key_columns i)).dedup

/-- Main body of `compare_excel_files` after the key-column guards
(lines 186-277): column set reports, effective compared columns, key index,
key-only sets, the per-row loop, and final aggregates.  Python `set`
operations are embedded as `dedup`-ed filtered lists followed by `pySorted`. -/
def compare_body (df1 df2 : Table) (key_columns : List String)
    (base : ComparisonResult) : ComparisonResult :=
  let cols1 := df1.columns
  let cols2 := df2.columns
  let common_columns := pySorted ((cols1.filter (fun c => cols2.contains c)).dedup)
  let only1 := pySorted ((cols1.filter (fun c => !cols2.contains c)).dedup)
  let only2 := pySorted ((cols2.filter (fun c => !cols1.contains c)).dedup)
  let columns_compared := columns_compared_of df1 df2
  let missing_req1 := COMPARE_COLUMNS.filter (fun c => !cols1.contains c)
  let missing_req2 := COMPARE_COLUMNS.filter (fun c => !cols2.contains c)
  let key_to_row2 := build_key_to_row_index df2 key_columns
  let keys_in_file1 := keys_in_file1_of df1 key_columns
  let keys_in_file2 := key_to_row2.map Prod.fst
  let keys_only_in_file1 := pySorted
    ((keys_in_file1.filter (fun k => !keys_in_file2.contains k)).map pyTupleRepr)
  let keys_only_in_file2 := pySorted
    ((keys_in_file2.filter (fun k => !keys_in_file1.contains k)).map pyTupleRepr)
  let outcomes := row_outcomes df1 df2 key_columns
  let differences := (outcomes.map RowOutcome.diffs).flatten
  let key_crosstabs := outcomes.filterMap RowOutcome.crosstab
  let cells_compared := (outcomes.map RowOutcome.cells).sum
  { base with
    common_columns := common_columns,
    columns_only_in_file1 := only1,
    columns_only_in_file2 := only2,
    columns_compared := columns_compared,
    requested_columns_missing_in_file1 := missing_req1,
    requested_columns_missing_in_file2 := missing_req2,
    keys_only_in_file1 := keys_only_in_file1,
    keys_only_in_file2 := keys_only_in_file2,
    differences := differences,
    key_crosstabs := key_crosstabs,
    cells_compared := cells_compared,
    total_differences := differences.length }

/-- Embedding of `compare_excel_files` (lines 154-277). -/
def compare_excel_files (df1 df2 : Table) (sheet_name1 sheet_name2 : String)
    (key_columns? : Option (List String)) : ComparisonResult :=
  let key_columns := effective_key_columns key_columns?
  let key_column_display := String.intercalate ", " key_columns
  let base : ComparisonResult :=
    { sheet_name_file1 := sheet_name1, sheet_name_file2 := sheet_name2,
      rows_file1 := df1.rows.length, rows_file2 := df2.rows.length,
      key_column := key_column_display }
  let missing1 := key_columns.filter (fun c => !df1.columns.contains c)
  if missing1 ≠ [] then
    { base with error := some ("Key column(s) " ++ pyListRepr missing1 ++
        " not found in File 1. Available: " ++ pyListRepr df1.columns) }
  else
    let missing2 := key_columns.filter (fun c => !df2.columns.contains c)
    if missing2 ≠ [] then
      { base with error := some ("Key column(s) " ++ pyListRepr missing2 ++
          " not found in File 2. Available: " ++ pyListRepr df2.columns) }
    else
      compare_body df1 df2 key_columns base

/-! Concrete tables used to instantiate the theorems below on real inputs. -/

/-- Sample File 1: key 1, fiscal year 10. -/
def sampleA : Table :=
  ⟨["Purchasing document number", "Fiscal year"], [[.int 1, .int 10]]⟩

/-- Sample File 2: key 1, fiscal year 20 (one differing cell). -/
def sampleB : Table :=
  ⟨["Purchasing document number", "Fiscal year"], [[.int 1, .int 20]]⟩

/-- Sample File 2 with no rows: every File 1 key is unmatched. -/
def sampleBEmpty : Table :=
  ⟨["Purchasing document number", "Fiscal year"], []⟩

/-- File 1 keyed by a column outside the compare-registry. -/
def noRegA : Table := ⟨["K"], [[.int 2]]⟩

/-- Empty File 2 for the registry-free key column. -/
def noRegB : Table := ⟨["K"], []⟩

/-- Table without the default key column, for the error path. -/
def badA : Table := ⟨["X"], [[.int 1]]⟩

/-- File 2 with a duplicated composite key. -/
def dupB : Table := ⟨["Purchasing document number"], [[.int 1], [.int 1]]⟩

/-! Helper lemmas about the embedding. -/

/-- General `any` over `map`, with heterogeneous types. -/
theorem list_any_map {α β : Type} (l : List α) (f : α → β) (p : β → Bool) :
    (l.map f).any p = l.any (fun a => p (f a)) := by
  induction l with
  | nil => rfl
  | cons a as ih => simp [ih]

/-- Unmatched branch of the row loop: the difference list. -/
theorem compare_row_diffs_of_none {df1 df2 : Table} {kc cc : List String}
    {idx : List (List String × Nat)} {i : Nat}
    (h : idx.lookup (row_key df1 kc i) = none) :
    (compare_row df1 df2 kc cc idx i).diffs =
      cc.map (fun col =>
        { row_index := i, column := col, value_file1 := df1.cell col i,
          value_file2 := Value.str missingSentinel, excel_row := i + 2,
          excel_row_file2 := none, key_value := row_key_display df1 kc i }) := by
  simp only [compare_row, h]

/-- Unmatched branch of the row loop: the crosstab entry is always present. -/
theorem compare_row_crosstab_of_none {df1 df2 : Table} {kc cc : List String}
    {idx : List (List String × Nat)} {i : Nat}
    (h : idx.lookup (row_key df1 kc i) = none) :
    (compare_row df1 df2 kc cc idx i).crosstab =
      some
        { key_value := row_key_display df1 kc i, excel_row_file1 := i + 2,
          excel_row_file2 := none,
          rows := cc.map (fun col =>
            { column := col, file1 := df1.cell col i,
              file2 := Value.str missingSentinel, is_difference := true }) } := by
  simp only [compare_row, h]

/-- Matched branch of the row loop: the difference list. -/
theorem compare_row_diffs_of_some {df1 df2 : Table} {kc cc : List String}
    {idx : List (List String × Nat)} {i j : Nat}
    (h : idx.lookup (row_key df1 kc i) = some j) :
    (compare_row df1 df2 kc cc idx i).diffs =
      (cc.filter (fun col =>
        normalize_value (df1.cell col i) != normalize_value (df2.cell col j))).map
        (fun col =>
          { row_index := i, column := col, value_file1 := df1.cell col i,
            value_file2 := df2.cell col j, excel_row := i + 2,
            excel_row_file2 := some (j + 2), key_value := row_key_display df1 kc i }) := by
  simp only [compare_row, h]

/-- Matched branch of the row loop: a crosstab entry appears exactly when some
compared column differs. -/
theorem compare_row_crosstab_of_some {df1 df2 : Table} {kc cc : List String}
    {idx : List (List String × Nat)} {i j : Nat}
    (h : idx.lookup (row_key df1 kc i) = some j) :
    (compare_row df1 df2 kc cc idx i).crosstab =
      (if cc.any (fun col =>
          normalize_value (df1.cell col i) != normalize_value (df2.cell col j)) then
        some
          { key_value := row_key_display df1 kc i, excel_row_file1 := i + 2,
            excel_row_file2 := some (j + 2),
            rows := cc.map (fun col =>
              { column := col, file1 := df1.cell col i, file2 := df2.cell col j,
                is_difference := normalize_value (df1.cell col i) !=
                  normalize_value (df2.cell col j) }) }
      else none) := by
  simp only [compare_row, h]
  have hany : ((cc.map (fun col =>
      ({ column := col, file1 := df1.cell col i, file2 := df2.cell col j,
         is_difference := normalize_value (df1.cell col i) !=
           normalize_value (df2.cell col j) } : CrosstabCell))).any
        (fun c => c.is_difference)) =
      cc.any (fun col =>
        normalize_value (df1.cell col i) != normalize_value (df2.cell col j)) := by
    rw [list_any_map]
  rw [hany]

/-- The counter increments once per compared column in either branch. -/
theorem compare_row_cells {df1 df2 : Table} {kc cc : List String}
    {idx : List (List String × Nat)} {i : Nat} :
    (compare_row df1 df2 kc cc idx i).cells = cc.length := by
  cases h : idx.lookup (row_key df1 kc i) <;> simp only [compare_row, h]

/-- Every difference emitted for row `i` carries `row_index = i`. -/
theorem compare_row_diffs_row_index {df1 df2 : Table} {kc cc : List String}
    {idx : List (List String × Nat)} {i : Nat} {d : CellDifference}
    (hd : d ∈ (compare_row df1 df2 kc cc idx i).diffs) : d.row_index = i := by
  cases h : idx.lookup (row_key df1 kc i) with
  | none =>
    rw [compare_row_diffs_of_none h] at hd
    obtain ⟨col, _, rfl⟩ := List.mem_map.mp hd
    rfl
  | some j =>
    rw [compare_row_diffs_of_some h] at hd
    obtain ⟨col, _, rfl⟩ := List.mem_map.mp hd
    rfl

/-- Every crosstab entry emitted for row `i` carries `excel_row_file1 = i + 2`. -/
theorem compare_row_crosstab_excel_row {df1 df2 : Table} {kc cc : List String}
    {idx : List (List String × Nat)} {i : Nat} {e : KeyCrosstab}
    (he : (compare_row df1 df2 kc cc idx i).crosstab = some e) :
    e.excel_row_file1 = i + 2 := by
  cases h : idx.lookup (row_key df1 kc i) with
  | none =>
    rw [compare_row_crosstab_of_none h] at he
    cases he
    rfl
  | some j =>
    rw [compare_row_crosstab_of_some h] at he
    by_cases hc : cc.any (fun col =>
        normalize_value (df1.cell col i) != normalize_value (df2.cell col j)) = true
    · rw [if_pos hc] at he
      cases he
      rfl
    · rw [if_neg hc] at he
      cases he

/-- When every requested key column is present in both tables, the guards in
`compare_excel_files` pass and the result is `compare_body` over the base
record. -/
theorem compare_excel_files_ok (df1 df2 : Table) (s1 s2 : String)
    (kcs : Option (List String))
    (h1 : ∀ c ∈ effective_key_columns kcs, df1.columns.contains c)
    (h2 : ∀ c ∈ effective_key_columns kcs, df2.columns.contains c) :
    compare_excel_files df1 df2 s1 s2 kcs =
      compare_body df1 df2 (effective_key_columns kcs)
        { sheet_name_file1 := s1, sheet_name_file2 := s2,
          rows_file1 := df1.rows.length, rows_file2 := df2.rows.length,
          key_column := String.intercalate ", " (effective_key_columns kcs) } := by
  have m1 : (effective_key_columns kcs).filter (fun c => !df1.columns.contains c) = [] := by
    rw [List.filter_eq_nil_iff]
    intro c hc
    simpa using h1 c hc
  have m2 : (effective_key_columns kcs).filter (fun c => !df2.columns.contains c) = [] := by
    rw [List.filter_eq_nil_iff]
    intro c hc
    simpa using h2 c hc
  rw [compare_excel_files]
  simp only [m1, m2, ne_eq, not_true_eq_false, if_false, if_neg, not_false_eq_true]

/-! Projections of `compare_body`. -/

theorem compare_body_differences (df1 df2 : Table) (kc : List String)
    (base : ComparisonResult) :
    (compare_body df1 df2 kc base).differences =
      ((row_outcomes df1 df2 kc).map RowOutcome.diffs).flatten := rfl

theorem compare_body_total_differences (df1 df2 : Table) (kc : List String)
    (base : ComparisonResult) :
    (compare_body df1 df2 kc base).total_differences =
      (compare_body df1 df2 kc base).differences.length := rfl

theorem compare_body_key_crosstabs (df1 df2 : Table) (kc : List String)
    (base : ComparisonResult) :
    (compare_body df1 df2 kc base).key_crosstabs =
      (row_outcomes df1 df2 kc).filterMap RowOutcome.crosstab := rfl

theorem compare_body_cells_compared (df1 df2 : Table) (kc : List String)
    (base : ComparisonResult) :
    (compare_body df1 df2 kc base).cells_compared =
      ((row_outcomes df1 df2 kc).map RowOutcome.cells).sum := rfl

theorem compare_body_columns_compared (df1 df2 : Table) (kc : List String)
    (base : ComparisonResult) :
    (compare_body df1 df2 kc base).columns_compared = columns_compared_of df1 df2 := rfl

theorem compare_body_keys_only_in_file1 (df1 df2 : Table) (kc : List String)
    (base : ComparisonResult) :
    (compare_body df1 df2 kc base).keys_only_in_file1 =
      pySorted (((keys_in_file1_of df1 kc).filter (fun k =>
        !((build_key_to_row_index df2 kc).map Prod.fst).contains k)).map pyTupleRepr) := rfl

theorem compare_body_keys_only_in_file2 (df1 df2 : Table) (kc : List String)
    (base : ComparisonResult) :
    (compare_body df1 df2 kc base).keys_only_in_file2 =
      pySorted ((((build_key_to_row_index df2 kc).map Prod.fst).filter (fun k =>
        !(keys_in_file1_of df1 kc).contains k)).map pyTupleRepr) := rfl

theorem compare_body_error (df1 df2 : Table) (kc : List String)
    (base : ComparisonResult) :
    (compare_body df1 df2 kc base).error = base.error := rfl

/-! Membership characterizations for the loop outputs. -/

/-- A difference is in the final list iff some File 1 row emitted it. -/
theorem mem_row_outcomes_diffs (df1 df2 : Table) (kc : List String)
    (d : CellDifference) :
    d ∈ ((row_outcomes df1 df2 kc).map RowOutcome.diffs).flatten ↔
      ∃ i < df1.rows.length,
        d ∈ (compare_row df1 df2 kc (columns_compared_of df1 df2)
          (build_key_to_row_index df2 kc) i).diffs := by
  simp only [row_outcomes, List.mem_flatten, List.mem_map, List.mem_range]
  constructor
  · rintro ⟨l, ⟨o, ⟨i, hi, rfl⟩, rfl⟩, hd⟩
    exact ⟨i, hi, hd⟩
  · rintro ⟨i, hi, hd⟩
    exact ⟨_, ⟨_, ⟨i, hi, rfl⟩, rfl⟩, hd⟩

/-- A crosstab entry is in the final list iff some File 1 row emitted it. -/
theorem mem_row_outcomes_crosstabs (df1 df2 : Table) (kc : List String)
    (e : KeyCrosstab) :
    e ∈ (row_outcomes df1 df2 kc).filterMap RowOutcome.crosstab ↔
      ∃ i < df1.rows.length,
        (compare_row df1 df2 kc (columns_compared_of df1 df2)
          (build_key_to_row_index df2 kc) i).crosstab = some e := by
  simp only [row_outcomes, List.mem_filterMap, List.mem_map, List.mem_range]
  constructor
  · rintro ⟨o, ⟨i, hi, rfl⟩, he⟩
    exact ⟨i, hi, he⟩
  · rintro ⟨i, hi, he⟩
    exact ⟨_, ⟨i, hi, rfl⟩, he⟩

/-! Claim theorems. -/

/-- C1: for every File 1 row whose composite key is matched in File 2's index
at row `j`, and every effective compared column, a `CellDifference` for that
(row, column) pair is recorded iff the normalized values of the two cells are
not identical strings. -/
theorem c1_matched_cell_difference_iff
    (df1 df2 : Table) (s1 s2 : String) (kcs : Option (List String)) (i j : Nat)
    (col : String)
    (h1 : ∀ c ∈ effective_key_columns kcs, df1.columns.contains c)
    (h2 : ∀ c ∈ effective_key_columns kcs, df2.columns.contains c)
    (hi : i < df1.rows.length)
    (hj : (build_key_to_row_index df2 (effective_key_columns kcs)).lookup
      (row_key df1 (effective_key_columns kcs) i) = some j)
    (hcol : col ∈ (compare_excel_files df1 df2 s1 s2 kcs).columns_compared) :
    (∃ d ∈ (compare_excel_files df1 df2 s1 s2 kcs).differences,
        d.row_index = i ∧ d.column = col) ↔
      normalize_value (df1.cell col i) ≠ normalize_value (df2.cell col j) := by
  rw [compare_excel_files_ok df1 df2 s1 s2 kcs h1 h2] at hcol ⊢
  rw [compare_body_columns_compared] at hcol
  rw [compare_body_differences]
  constructor
  · rintro ⟨d, hd, hrow, hcolumn⟩
    rw [mem_row_outcomes_diffs] at hd
    obtain ⟨i2, hi2, hmem⟩ := hd
    have hri : d.row_index = i2 := compare_row_diffs_row_index hmem
    have : i2 = i := by rw [hri] at hrow; exact hrow
    subst this
    rw [compare_row_diffs_of_some hj] at hmem
    obtain ⟨c, hcf, rfl⟩ := List.mem_map.mp hmem
    have hc : c = col := hcolumn
    subst hc
    exact bne_iff_ne.mp (List.mem_filter.mp hcf).2
  · intro hne
    refine ⟨{ row_index := i, column := col, value_file1 := df1.cell col i, value_file2 := df2.cell col j, excel_row := i + 2, excel_row_file2 := some (j + 2), key_value := row_key_display df1 (effective_key_columns kcs) i }, ?_, rfl, rfl⟩
    rw [mem_row_outcomes_diffs]
    refine ⟨i, hi, ?_⟩
    rw [compare_row_diffs_of_some hj]
    exact List.mem_map_of_mem _
      (List.mem_filter.mpr ⟨hcol, bne_iff_ne.mpr hne⟩)

/-- Witness for C1 at the sample tables: row 0 matches row 0, the compared
column "Fiscal year" normalizes to different strings, and a difference is
recorded. -/
theorem c1_matched_cell_difference_iff_witness :
    (∃ d ∈ (compare_excel_files sampleA sampleB "Sheet1" "Sheet1" none).differences,
        d.row_index = 0 ∧ d.column = "Fiscal year") ↔
      normalize_value (sampleA.cell "Fiscal year" 0) ≠
        normalize_value (sampleB.cell "Fiscal year" 0) :=
  c1_matched_cell_difference_iff sampleA sampleB "Sheet1" "Sheet1" none 0 0
    "Fiscal year" (by decide) (by decide) (by decide) (by decide) (by decide)

/-- C3: with all key columns present in both tables, the final cells-compared
count is the number of effective compared columns times the number of File 1
rows. -/
theorem c3_cells_compared_eq
    (df1 df2 : Table) (s1 s2 : String) (kcs : Option (List String))
    (h1 : ∀ c ∈ effective_key_columns kcs, df1.columns.contains c)
    (h2 : ∀ c ∈ effective_key_columns kcs, df2.columns.contains c) :
    (compare_excel_files df1 df2 s1 s2 kcs).cells_compared =
      (compare_excel_files df1 df2 s1 s2 kcs).columns_compared.length *
        df1.rows.length := by
  rw [compare_excel_files_ok df1 df2 s1 s2 kcs h1 h2,
    compare_body_cells_compared, compare_body_columns_compared]
  have hrep : (row_outcomes df1 df2 (effective_key_columns kcs)).map RowOutcome.cells
      = List.replicate df1.rows.length (columns_compared_of df1 df2).length := by
    rw [List.eq_replicate_iff]
    constructor
    · simp [row_outcomes]
    · intro b hb
      rw [row_outcomes, List.map_map] at hb
      obtain ⟨i, _, rfl⟩ := List.mem_map.mp hb
      exact compare_row_cells
  rw [hrep, List.sum_replicate, smul_eq_mul, Nat.mul_comm]

/-- Witness for C3 at the sample tables: 2 compared columns, 1 row, 2 cells. -/
theorem c3_cells_compared_eq_witness :
    (compare_excel_files sampleA sampleB "Sheet1" "Sheet1" none).cells_compared =
      (compare_excel_files sampleA sampleB "Sheet1" "Sheet1" none).columns_compared.length *
        sampleA.rows.length :=
  c3_cells_compared_eq sampleA sampleB "Sheet1" "Sheet1" none (by decide) (by decide)

/-- C2: for every File 1 row whose composite key is absent from File 2's
index, every effective compared column is recorded as a `CellDifference`
whose File 2 value is the fixed sentinel string, and a crosstab entry for
that row is always appended. -/
theorem c2_unmatched_row_all_missing
    (df1 df2 : Table) (s1 s2 : String) (kcs : Option (List String)) (i : Nat)
    (h1 : ∀ c ∈ effective_key_columns kcs, df1.columns.contains c)
    (h2 : ∀ c ∈ effective_key_columns kcs, df2.columns.contains c)
    (hi : i < df1.rows.length)
    (hj : (build_key_to_row_index df2 (effective_key_columns kcs)).lookup
      (row_key df1 (effective_key_columns kcs) i) = none) :
    (∀ col ∈ (compare_excel_files df1 df2 s1 s2 kcs).columns_compared,
      ∃ d ∈ (compare_excel_files df1 df2 s1 s2 kcs).differences,
        d.row_index = i ∧ d.column = col ∧
          d.value_file2 = Value.str missingSentinel) ∧
      ∃ e ∈ (compare_excel_files df1 df2 s1 s2 kcs).key_crosstabs,
        e.excel_row_file1 = i + 2 := by
  rw [compare_excel_files_ok df1 df2 s1 s2 kcs h1 h2]
  rw [compare_body_columns_compared, compare_body_differences,
    compare_body_key_crosstabs]
  constructor
  · intro col hcol
    refine ⟨{ row_index := i, column := col, value_file1 := df1.cell col i, value_file2 := Value.str missingSentinel, excel_row := i + 2, excel_row_file2 := none, key_value := row_key_display df1 (effective_key_columns kcs) i }, ?_, rfl, rfl, rfl⟩
    rw [mem_row_outcomes_diffs]
    refine ⟨i, hi, ?_⟩
    rw [compare_row_diffs_of_none hj]
    exact List.mem_map_of_mem _ hcol
  · have hmem := (mem_row_outcomes_crosstabs df1 df2 (effective_key_columns kcs) _).mpr
      ⟨i, hi, compare_row_crosstab_of_none hj⟩
    exact ⟨_, hmem, rfl⟩

/-- Witness for C2: the single row of File 1 is unmatched against an empty
File 2, both compared columns are reported against the sentinel, and a
crosstab entry is appended. -/
theorem c2_unmatched_row_all_missing_witness :
    (∀ col ∈ (compare_excel_files sampleA sampleBEmpty "Sheet1" "Sheet1" none).columns_compared,
      ∃ d ∈ (compare_excel_files sampleA sampleBEmpty "Sheet1" "Sheet1" none).differences,
        d.row_index = 0 ∧ d.column = col ∧
          d.value_file2 = Value.str missingSentinel) ∧
      ∃ e ∈ (compare_excel_files sampleA sampleBEmpty "Sheet1" "Sheet1" none).key_crosstabs,
        e.excel_row_file1 = 0 + 2 :=
  c2_unmatched_row_all_missing sampleA sampleBEmpty "Sheet1" "Sheet1" none 0
    (by decide) (by decide) (by decide) (by decide)

/-- C4 as stated is false on the code: when the effective compared-column
list is empty, an unmatched File 1 row still gets a crosstab entry appended
while contributing zero differing cells, so "entry exists iff the row has at
least one differing cell" fails at this input. -/
theorem c4_crosstab_counterexample :
    (∃ e ∈ (compare_excel_files noRegA noRegB "Sheet1" "Sheet1" (some ["K"])).key_crosstabs,
        e.excel_row_file1 = 0 + 2) ∧
      ¬ ∃ d ∈ (compare_excel_files noRegA noRegB "Sheet1" "Sheet1" (some ["K"])).differences,
          d.row_index = 0 := by
  decide

/-- C4 (amended): a crosstab entry for File 1 row `i` exists iff row `i` is
unmatched in File 2's index or has at least one differing cell.  Matched rows
with zero differing cells are never added; unmatched rows always are, even
when the effective compared-column list is empty and they therefore
contribute no differing cell. -/
theorem c4_crosstab_entry_iff
    (df1 df2 : Table) (s1 s2 : String) (kcs : Option (List String)) (i : Nat)
    (h1 : ∀ c ∈ effective_key_columns kcs, df1.columns.contains c)
    (h2 : ∀ c ∈ effective_key_columns kcs, df2.columns.contains c)
    (hi : i < df1.rows.length) :
    (∃ e ∈ (compare_excel_files df1 df2 s1 s2 kcs).key_crosstabs,
        e.excel_row_file1 = i + 2) ↔
      ((build_key_to_row_index df2 (effective_key_columns kcs)).lookup
          (row_key df1 (effective_key_columns kcs) i) = none ∨
        ∃ d ∈ (compare_excel_files df1 df2 s1 s2 kcs).differences,
          d.row_index = i) := by
  rw [compare_excel_files_ok df1 df2 s1 s2 kcs h1 h2]
  rw [compare_body_differences, compare_body_key_crosstabs]
  cases hj : (build_key_to_row_index df2 (effective_key_columns kcs)).lookup
      (row_key df1 (effective_key_columns kcs) i) with
  | none =>
    constructor
    · intro _
      exact Or.inl rfl
    · intro _
      have hmem := (mem_row_outcomes_crosstabs df1 df2 (effective_key_columns kcs) _).mpr
        ⟨i, hi, compare_row_crosstab_of_none hj⟩
      exact ⟨_, hmem, rfl⟩
  | some j =>
    constructor
    · rintro ⟨e, he, hrow⟩
      rw [mem_row_outcomes_crosstabs] at he
      obtain ⟨i2, hi2, he2⟩ := he
      have : e.excel_row_file1 = i2 + 2 := compare_row_crosstab_excel_row he2
      have hii : i2 = i := by omega
      subst hii
      rw [compare_row_crosstab_of_some hj] at he2
      by_cases hc : (columns_compared_of df1 df2).any (fun col =>
          normalize_value (df1.cell col i2) != normalize_value (df2.cell col j)) = true
      · obtain ⟨col, hcol, hpred⟩ := List.any_eq_true.mp hc
        refine Or.inr ⟨{ row_index := i2, column := col, value_file1 := df1.cell col i2, value_file2 := df2.cell col j, excel_row := i2 + 2, excel_row_file2 := some (j + 2), key_value := row_key_display df1 (effective_key_columns kcs) i2 }, ?_, rfl⟩
        rw [mem_row_outcomes_diffs]
        refine ⟨i2, hi2, ?_⟩
        rw [compare_row_diffs_of_some hj]
        exact List.mem_map_of_mem _ (List.mem_filter.mpr ⟨hcol, hpred⟩)
      · rw [if_neg hc] at he2
        cases he2
    · rintro (hfalse | ⟨d, hd, hrow⟩)
      · cases hfalse
      · rw [mem_row_outcomes_diffs] at hd
        obtain ⟨i2, hi2, hmem⟩ := hd
        have hri : d.row_index = i2 := compare_row_diffs_row_index hmem
        have hii : i2 = i := by omega
        subst hii
        rw [compare_row_diffs_of_some hj] at hmem
        obtain ⟨c, hcf, rfl⟩ := List.mem_map.mp hmem
        obtain ⟨hcc, hpred⟩ := List.mem_filter.mp hcf
        have hany : (columns_compared_of df1 df2).any (fun col =>
            normalize_value (df1.cell col i2) !=
              normalize_value (df2.cell col j)) = true :=
          List.any_eq_true.mpr ⟨c, hcc, hpred⟩
        have hmem := (mem_row_outcomes_crosstabs df1 df2 (effective_key_columns kcs) _).mpr
          ⟨i2, hi2, by rw [compare_row_crosstab_of_some hj, if_pos hany]⟩
        exact ⟨_, hmem, rfl⟩

/-- Witness for the amended C4 at the sample tables: row 0 is matched and has
a differing cell, and a crosstab entry for it exists. -/
theorem c4_crosstab_entry_iff_witness :
    (∃ e ∈ (compare_excel_files sampleA sampleB "Sheet1" "Sheet1" none).key_crosstabs,
        e.excel_row_file1 = 0 + 2) ↔
      ((build_key_to_row_index sampleB (effective_key_columns none)).lookup
          (row_key sampleA (effective_key_columns none) 0) = none ∨
        ∃ d ∈ (compare_excel_files sampleA sampleB "Sheet1" "Sheet1" none).differences,
          d.row_index = 0) :=
  c4_crosstab_entry_iff sampleA sampleB "Sheet1" "Sheet1" none 0
    (by decide) (by decide) (by decide)

/-- Error path 1: a requested key column is missing from File 1. -/
theorem compare_excel_files_missing1 (df1 df2 : Table) (s1 s2 : String)
    (kcs : Option (List String))
    (hm : (effective_key_columns kcs).filter (fun c => !df1.columns.contains c) ≠ []) :
    compare_excel_files df1 df2 s1 s2 kcs =
      { sheet_name_file1 := s1, sheet_name_file2 := s2,
        rows_file1 := df1.rows.length, rows_file2 := df2.rows.length,
        key_column := String.intercalate ", " (effective_key_columns kcs),
        error := some ("Key column(s) " ++
          pyListRepr ((effective_key_columns kcs).filter
            (fun c => !df1.columns.contains c)) ++
          " not found in File 1. Available: " ++ pyListRepr df1.columns) } := by
  rw [compare_excel_files]
  simp only [if_pos hm]

/-- Error path 2: key columns all present in File 1 but one is missing from
File 2. -/
theorem compare_excel_files_missing2 (df1 df2 : Table) (s1 s2 : String)
    (kcs : Option (List String))
    (hm1 : (effective_key_columns kcs).filter (fun c => !df1.columns.contains c) = [])
    (hm : (effective_key_columns kcs).filter (fun c => !df2.columns.contains c) ≠ []) :
    compare_excel_files df1 df2 s1 s2 kcs =
      { sheet_name_file1 := s1, sheet_name_file2 := s2,
        rows_file1 := df1.rows.length, rows_file2 := df2.rows.length,
        key_column := String.intercalate ", " (effective_key_columns kcs),
        error := some ("Key column(s) " ++
          pyListRepr ((effective_key_columns kcs).filter
            (fun c => !df2.columns.contains c)) ++
          " not found in File 2. Available: " ++ pyListRepr df2.columns) } := by
  rw [compare_excel_files]
  simp only [hm1, ne_eq, not_true_eq_false, if_false, if_pos hm, if_neg, not_false_eq_true]

/-- Per-row difference count never exceeds the per-row cell count. -/
theorem compare_row_diffs_length_le {df1 df2 : Table} {kc cc : List String}
    {idx : List (List String × Nat)} {i : Nat} :
    (compare_row df1 df2 kc cc idx i).diffs.length ≤
      (compare_row df1 df2 kc cc idx i).cells := by
  rw [compare_row_cells]
  cases h : idx.lookup (row_key df1 kc i) with
  | none =>
    rw [compare_row_diffs_of_none h, List.length_map]
  | some j =>
    rw [compare_row_diffs_of_some h, List.length_map]
    exact List.length_filter_le _ _

/-- The match percentage is between 0 and 100 whenever the difference count
is at most the cell count. -/
theorem match_percentage_bounds (r : ComparisonResult)
    (hd : r.total_differences ≤ r.cells_compared) :
    0 ≤ r.match_percentage ∧ r.match_percentage ≤ 100 := by
  rw [ComparisonResult.match_percentage]
  by_cases hc : r.cells_compared = 0
  · rw [if_pos hc]
    norm_num
  · rw [if_neg hc]
    have hcpos : (0 : ℚ) < (r.cells_compared : ℚ) := by
      exact_mod_cast Nat.pos_of_ne_zero hc
    have hratio0 : (0 : ℚ) ≤ (r.total_differences : ℚ) / (r.cells_compared : ℚ) :=
      div_nonneg (by positivity) (le_of_lt hcpos)
    have hratio1 : (r.total_differences : ℚ) / (r.cells_compared : ℚ) ≤ 1 :=
      (div_le_one hcpos).mpr (by exact_mod_cast hd)
    set q : ℚ := 100 * (1 - (r.total_differences : ℚ) / (r.cells_compared : ℚ)) with hq
    have hq0 : (0 : ℚ) ≤ q := by
      rw [hq]
      nlinarith
    have hq100 : q ≤ 100 := by
      rw [hq]
      nlinarith
    rw [pyRound2, round_eq]
    constructor
    · have hfl : (0 : ℤ) ≤ ⌊q * 100 + 1 / 2⌋ := by
        rw [Int.le_floor]
        push_cast
        nlinarith
      have : (0 : ℚ) ≤ (⌊q * 100 + 1 / 2⌋ : ℚ) := by exact_mod_cast hfl
      positivity
    · have hfl : ⌊q * 100 + 1 / 2⌋ ≤ 10000 := by
        have h1 : q * 100 + 1 / 2 ≤ 10000 + 1 / 2 := by nlinarith
        have h2 : ⌊q * 100 + 1 / 2⌋ ≤ ⌊(10000 : ℚ) + 1 / 2⌋ := Int.floor_le_floor h1
        have h3 : ⌊(10000 : ℚ) + 1 / 2⌋ = 10000 := by
          rw [Int.floor_eq_iff]
          norm_num
        omega
      rw [div_le_iff₀ (by norm_num : (0:ℚ) < 100)]
      calc ((⌊q * 100 + 1 / 2⌋ : ℤ) : ℚ) ≤ ((10000 : ℤ) : ℚ) := by exact_mod_cast hfl
        _ = 100 * 100 := by norm_num

/-- C5: the match percentage equals `100 * (1 - total_differences /
cells_compared)` rounded to two decimals when `cells_compared > 0`, equals
100 when `cells_compared = 0`, and equals 100 whenever
`total_differences = 0`. -/
theorem c5_match_percentage_formula (r : ComparisonResult) :
    (r.cells_compared = 0 → r.match_percentage = 100) ∧
      (r.cells_compared ≠ 0 →
        r.match_percentage = pyRound2 (100 *
          (1 - (r.total_differences : ℚ) / (r.cells_compared : ℚ)))) ∧
      (r.total_differences = 0 → r.match_percentage = 100) := by
  refine ⟨?_, ?_, ?_⟩
  · intro h
    rw [ComparisonResult.match_percentage, if_pos h]
  · intro h
    rw [ComparisonResult.match_percentage, if_neg h]
  · intro h
    rw [ComparisonResult.match_percentage]
    by_cases hc : r.cells_compared = 0
    · rw [if_pos hc]
    · rw [if_neg hc, h]
      have : (100 : ℚ) * (1 - ((0 : Nat) : ℚ) / (r.cells_compared : ℚ)) = 100 := by
        norm_num
      rw [this, pyRound2, round_eq]
      have h3 : ⌊(100 : ℚ) * 100 + 1 / 2⌋ = 10000 := by
        rw [Int.floor_eq_iff]
        norm_num
      rw [h3]
      norm_num

/-- Witness for C5 at a concrete result record with 1 difference out of 4
cells. -/
theorem c5_match_percentage_formula_witness :
    ({ cells_compared := 4, total_differences := 1 } : ComparisonResult).match_percentage =
      pyRound2 (100 * (1 -
        (({ cells_compared := 4, total_differences := 1 } : ComparisonResult).total_differences : ℚ) /
        (({ cells_compared := 4, total_differences := 1 } : ComparisonResult).cells_compared : ℚ))) :=
  (c5_match_percentage_formula
    { cells_compared := 4, total_differences := 1 }).2.1 (by decide)

/-- An empty missing-column filter means every column is present. -/
theorem contains_of_filter_missing_eq_nil {l cols : List String}
    (h : l.filter (fun c => !cols.contains c) = []) :
    ∀ c ∈ l, cols.contains c := by
  intro c hc
  have := List.filter_eq_nil_iff.mp h c hc
  simpa using this

/-- C10: for every result of `compare_excel_files`, `total_differences`
equals the length of the differences list and never exceeds
`cells_compared`, so the match percentage lies between 0 and 100. -/
theorem c10_result_invariants (df1 df2 : Table) (s1 s2 : String)
    (kcs : Option (List String)) :
    (compare_excel_files df1 df2 s1 s2 kcs).total_differences =
        (compare_excel_files df1 df2 s1 s2 kcs).differences.length ∧
      (compare_excel_files df1 df2 s1 s2 kcs).total_differences ≤
        (compare_excel_files df1 df2 s1 s2 kcs).cells_compared ∧
      0 ≤ (compare_excel_files df1 df2 s1 s2 kcs).match_percentage ∧
      (compare_excel_files df1 df2 s1 s2 kcs).match_percentage ≤ 100 := by
  have key : (compare_excel_files df1 df2 s1 s2 kcs).total_differences =
        (compare_excel_files df1 df2 s1 s2 kcs).differences.length ∧
      (compare_excel_files df1 df2 s1 s2 kcs).total_differences ≤
        (compare_excel_files df1 df2 s1 s2 kcs).cells_compared := by
    by_cases hm1 : (effective_key_columns kcs).filter
        (fun c => !df1.columns.contains c) ≠ []
    · rw [compare_excel_files_missing1 df1 df2 s1 s2 kcs hm1]
      exact ⟨rfl, Nat.le_refl 0⟩
    · have hm1eq : (effective_key_columns kcs).filter
          (fun c => !df1.columns.contains c) = [] := not_ne_iff.mp hm1
      by_cases hm2 : (effective_key_columns kcs).filter
          (fun c => !df2.columns.contains c) ≠ []
      · rw [compare_excel_files_missing2 df1 df2 s1 s2 kcs hm1eq hm2]
        exact ⟨rfl, Nat.le_refl 0⟩
      · have hm2eq : (effective_key_columns kcs).filter
            (fun c => !df2.columns.contains c) = [] := not_ne_iff.mp hm2
        have h1 := contains_of_filter_missing_eq_nil hm1eq
        have h2 := contains_of_filter_missing_eq_nil hm2eq
        rw [compare_excel_files_ok df1 df2 s1 s2 kcs h1 h2]
        refine ⟨rfl, ?_⟩
        rw [compare_body_total_differences, compare_body_differences,
          compare_body_cells_compared, List.length_flatten, List.map_map]
        refine List.sum_le_sum ?_
        intro o ho
        obtain ⟨i, _, rfl⟩ := List.mem_map.mp ho
        exact compare_row_diffs_length_le
  exact ⟨key.1, key.2, (match_percentage_bounds _ key.2).1,
    (match_percentage_bounds _ key.2).2⟩

/-- Invariant of the index-building loop: looking up `k` afterwards yields
what the accumulator already had, else the first remaining row whose key is
`k`. -/
theorem build_key_to_row_index_go_lookup (df : Table) (kc : List String)
    (is : List Nat) (out : List (List String × Nat)) (k : List String) :
    (build_key_to_row_index_go df kc is out).lookup k =
      (out.lookup k).or (is.find? (fun i => row_key df kc i == k)) := by
  induction is generalizing out with
  | nil => simp [build_key_to_row_index_go]
  | cons i rest ih =>
    rw [build_key_to_row_index_go]
    have hfc : List.find? (fun i2 => row_key df kc i2 == k) (i :: rest) =
        if (row_key df kc i == k) = true then some i
        else List.find? (fun i2 => row_key df kc i2 == k) rest := by
      rw [List.find?_cons]
      by_cases hik : (row_key df kc i == k) = true
      · simp [hik]
      · simp [hik]
    by_cases hk : (out.lookup (row_key df kc i)).isSome
    · rw [if_pos hk, ih, hfc]
      by_cases hik : (row_key df kc i == k) = true
      · have hkk : row_key df kc i = k := eq_of_beq hik
        obtain ⟨v, hv⟩ := Option.isSome_iff_exists.mp hk
        rw [hkk] at hv
        rw [hv, if_pos hik]
        rfl
      · rw [if_neg hik]
    · have hnone : out.lookup (row_key df kc i) = none :=
        Option.not_isSome_iff_eq_none.mp hk
      rw [if_neg hk, ih, List.lookup_append, hfc]
      by_cases hik : (row_key df kc i == k) = true
      · have hkk : row_key df kc i = k := eq_of_beq hik
        subst hkk
        rw [hnone, if_pos hik]
        simp [List.lookup]
      · have hksym : (k == row_key df kc i) = false := by
          rw [beq_eq_false_iff_ne]
          intro hkk
          rw [← hkk] at hik
          exact hik (by simp)
        rw [if_neg hik]
        simp [List.lookup, hksym]

/-- A successful `find?` over `List.range n` returns the least index
satisfying the predicate. -/
theorem range_find?_least (n : Nat) (p : Nat → Bool) (j : Nat)
    (h : (List.range n).find? p = some j) :
    p j = true ∧ j < n ∧ ∀ i < j, p i = false := by
  induction n with
  | zero => simp [List.range_zero] at h
  | succ n ih =>
    rw [List.range_succ, List.find?_append] at h
    cases hf : (List.range n).find? p with
    | some j2 =>
      rw [hf] at h
      have hj : j2 = j := by
        simpa [Option.or] using h
      subst hj
      obtain ⟨hp, hlt, hmin⟩ := ih hf
      exact ⟨hp, Nat.lt_succ_of_lt hlt, hmin⟩
    | none =>
      rw [hf] at h
      simp only [Option.or] at h
      by_cases hp : p n = true
      · have hj : n = j := by
          rw [List.find?_cons_of_pos _ hp] at h
          simpa using h
        subst hj
        refine ⟨hp, Nat.lt_succ_self n, ?_⟩
        intro i hi
        have := List.find?_eq_none.mp hf i (List.mem_range.mpr hi)
        exact Bool.not_eq_true _ ▸ (by simpa using this)
      · rw [List.find?_cons_of_neg _ hp] at h
        simp at h

/-- With the key columns present, index lookup is exactly the first row of
the table whose composite key matches. -/
theorem build_key_to_row_index_lookup_eq (df2 : Table) (kcols : List String)
    (k : List String)
    (h2 : ∀ c ∈ kcols, df2.columns.contains c) :
    (build_key_to_row_index df2 kcols).lookup k =
      (List.range df2.rows.length).find? (fun i => row_key df2 kcols i == k) := by
  have hm : kcols.filter (fun c => !df2.columns.contains c) = [] := by
    rw [List.filter_eq_nil_iff]
    intro c hc
    simpa using h2 c hc
  rw [build_key_to_row_index]
  simp only [hm, ne_eq, not_true_eq_false, if_false]
  rw [build_key_to_row_index_go_lookup]
  rfl

/-- C6: with the key columns present in File 2, the index maps every
composite key to the first (lowest) File 2 row position bearing it: the
lookup used by the comparison loop equals `find?` over the row positions in
order, and a successful lookup returns a row with that key such that no
earlier row has it.  Later duplicate rows are never match targets. -/
theorem c6_first_occurrence_wins (df2 : Table) (kcols : List String)
    (k : List String)
    (h2 : ∀ c ∈ kcols, df2.columns.contains c) :
    ((build_key_to_row_index df2 kcols).lookup k =
      (List.range df2.rows.length).find? (fun i => row_key df2 kcols i == k)) ∧
    (∀ j, (build_key_to_row_index df2 kcols).lookup k = some j →
      row_key df2 kcols j = k ∧ j < df2.rows.length ∧
        ∀ i < j, row_key df2 kcols i ≠ k) := by
  have heq := build_key_to_row_index_lookup_eq df2 kcols k h2
  refine ⟨heq, ?_⟩
  intro j hj
  rw [heq] at hj
  obtain ⟨hp, hlt, hmin⟩ := range_find?_least _ _ _ hj
  refine ⟨eq_of_beq hp, hlt, ?_⟩
  intro i hi hkk
  have := hmin i hi
  rw [hkk] at this
  simp at this

/-- Witness for C6: File 2 has two rows with key "1"; lookup returns row 0,
the first occurrence, and no earlier row has the key. -/
theorem c6_first_occurrence_wins_witness :
    (((build_key_to_row_index dupB ["Purchasing document number"]).lookup ["1"] =
      (List.range dupB.rows.length).find?
        (fun i => row_key dupB ["Purchasing document number"] i == ["1"])) ∧
    (∀ j, (build_key_to_row_index dupB ["Purchasing document number"]).lookup ["1"] = some j →
      row_key dupB ["Purchasing document number"] j = ["1"] ∧ j < dupB.rows.length ∧
        ∀ i < j, row_key dupB ["Purchasing document number"] i ≠ ["1"])) :=
  c6_first_occurrence_wins dupB ["Purchasing document number"] ["1"] (by decide)

/-- C7: the effective compared-column list contains exactly the column names
that are simultaneously in the static compare-registry, in File 1, and in
File 2, and it is ordered by File 1 column order (it is a filter of File 1's
column list, not of the registry). -/
theorem c7_columns_compared_characterization
    (df1 df2 : Table) (s1 s2 : String) (kcs : Option (List String))
    (h1 : ∀ c ∈ effective_key_columns kcs, df1.columns.contains c)
    (h2 : ∀ c ∈ effective_key_columns kcs, df2.columns.contains c) :
    (compare_excel_files df1 df2 s1 s2 kcs).columns_compared =
      df1.columns.filter (fun c =>
        COMPARE_COLUMNS.contains c && df2.columns.contains c) ∧
    ∀ c, c ∈ (compare_excel_files df1 df2 s1 s2 kcs).columns_compared ↔
      (c ∈ COMPARE_COLUMNS ∧ c ∈ df1.columns ∧ c ∈ df2.columns) := by
  rw [compare_excel_files_ok df1 df2 s1 s2 kcs h1 h2,
    compare_body_columns_compared]
  have hfe : columns_compared_of df1 df2 =
      df1.columns.filter (fun c =>
        COMPARE_COLUMNS.contains c && df2.columns.contains c) := by
    rw [columns_compared_of]
    apply List.filter_congr
    intro c hc
    rw [Bool.eq_iff_iff]
    simp [List.mem_filter, hc]
  refine ⟨hfe, ?_⟩
  intro c
  rw [hfe]
  simp [List.mem_filter]
  tauto

/-- Witness for C7 at the sample tables: both columns are in the registry and
in both tables. -/
theorem c7_columns_compared_characterization_witness :
    (compare_excel_files sampleA sampleB "Sheet1" "Sheet1" none).columns_compared =
      sampleA.columns.filter (fun c =>
        COMPARE_COLUMNS.contains c && sampleB.columns.contains c) ∧
    ∀ c, c ∈ (compare_excel_files sampleA sampleB "Sheet1" "Sheet1" none).columns_compared ↔
      (c ∈ COMPARE_COLUMNS ∧ c ∈ sampleA.columns ∧ c ∈ sampleB.columns) :=
  c7_columns_compared_characterization sampleA sampleB "Sheet1" "Sheet1" none
    (by decide) (by decide)

/-- C8: when some requested key column is absent from File 1 or File 2, the
result carries only an error message (naming the missing key columns and the
offending table's available column list) and empty aggregates: differences,
crosstabs, key sets, column sets and the cell counter all stay empty or
zero. -/
theorem c8_missing_key_column_error
    (df1 df2 : Table) (s1 s2 : String) (kcs : Option (List String))
    (hmiss : (effective_key_columns kcs).filter (fun c => !df1.columns.contains c) ≠ [] ∨
      (effective_key_columns kcs).filter (fun c => !df2.columns.contains c) ≠ []) :
    (compare_excel_files df1 df2 s1 s2 kcs).error =
      (if (effective_key_columns kcs).filter (fun c => !df1.columns.contains c) ≠ []
       then some ("Key column(s) " ++ pyListRepr ((effective_key_columns kcs).filter (fun c => !df1.columns.contains c)) ++ " not found in File 1. Available: " ++ pyListRepr df1.columns)
       else some ("Key column(s) " ++ pyListRepr ((effective_key_columns kcs).filter (fun c => !df2.columns.contains c)) ++ " not found in File 2. Available: " ++ pyListRepr df2.columns)) ∧
    (compare_excel_files df1 df2 s1 s2 kcs).differences = [] ∧
    (compare_excel_files df1 df2 s1 s2 kcs).key_crosstabs = [] ∧
    (compare_excel_files df1 df2 s1 s2 kcs).keys_only_in_file1 = [] ∧
    (compare_excel_files df1 df2 s1 s2 kcs).keys_only_in_file2 = [] ∧
    (compare_excel_files df1 df2 s1 s2 kcs).columns_compared = [] ∧
    (compare_excel_files df1 df2 s1 s2 kcs).common_columns = [] ∧
    (compare_excel_files df1 df2 s1 s2 kcs).columns_only_in_file1 = [] ∧
    (compare_excel_files df1 df2 s1 s2 kcs).columns_only_in_file2 = [] ∧
    (compare_excel_files df1 df2 s1 s2 kcs).cells_compared = 0 ∧
    (compare_excel_files df1 df2 s1 s2 kcs).total_differences = 0 := by
  by_cases hm1 : (effective_key_columns kcs).filter (fun c => !df1.columns.contains c) ≠ []
  · rw [compare_excel_files_missing1 df1 df2 s1 s2 kcs hm1, if_pos hm1]
    exact ⟨rfl, rfl, rfl, rfl, rfl, rfl, rfl, rfl, rfl, rfl, rfl⟩
  · have hm1eq : (effective_key_columns kcs).filter
        (fun c => !df1.columns.contains c) = [] := not_ne_iff.mp hm1
    have hm2 : (effective_key_columns kcs).filter
        (fun c => !df2.columns.contains c) ≠ [] := hmiss.resolve_left hm1
    rw [compare_excel_files_missing2 df1 df2 s1 s2 kcs hm1eq hm2, if_neg hm1]
    exact ⟨rfl, rfl, rfl, rfl, rfl, rfl, rfl, rfl, rfl, rfl, rfl⟩

/-- Witness for C8: the default key column is absent from File 1. -/
theorem c8_missing_key_column_error_witness :
    (compare_excel_files badA sampleB "Sheet1" "Sheet1" none).error =
      (if (effective_key_columns none).filter (fun c => !badA.columns.contains c) ≠ []
       then some ("Key column(s) " ++ pyListRepr ((effective_key_columns none).filter (fun c => !badA.columns.contains c)) ++ " not found in File 1. Available: " ++ pyListRepr badA.columns)
       else some ("Key column(s) " ++ pyListRepr ((effective_key_columns none).filter (fun c => !sampleB.columns.contains c)) ++ " not found in File 2. Available: " ++ pyListRepr sampleB.columns)) ∧
    (compare_excel_files badA sampleB "Sheet1" "Sheet1" none).differences = [] ∧
    (compare_excel_files badA sampleB "Sheet1" "Sheet1" none).key_crosstabs = [] ∧
    (compare_excel_files badA sampleB "Sheet1" "Sheet1" none).keys_only_in_file1 = [] ∧
    (compare_excel_files badA sampleB "Sheet1" "Sheet1" none).keys_only_in_file2 = [] ∧
    (compare_excel_files badA sampleB "Sheet1" "Sheet1" none).columns_compared = [] ∧
    (compare_excel_files badA sampleB "Sheet1" "Sheet1" none).common_columns = [] ∧
    (compare_excel_files badA sampleB "Sheet1" "Sheet1" none).columns_only_in_file1 = [] ∧
    (compare_excel_files badA sampleB "Sheet1" "Sheet1" none).columns_only_in_file2 = [] ∧
    (compare_excel_files badA sampleB "Sheet1" "Sheet1" none).cells_compared = 0 ∧
    (compare_excel_files badA sampleB "Sheet1" "Sheet1" none).total_differences = 0 :=
  c8_missing_key_column_error badA sampleB "Sheet1" "Sheet1" none (Or.inl (by decide))

/-- Lookup succeeds exactly on the stored keys of an association list. -/
theorem lookup_isSome_iff_mem_map_fst (l : List (List String × Nat))
    (k : List String) :
    (l.lookup k).isSome = true ↔ k ∈ l.map Prod.fst := by
  induction l with
  | nil => simp [List.lookup]
  | cons p t ih =>
    obtain ⟨a, b⟩ := p
    by_cases h : (k == a) = true
    · have hk : k = a := eq_of_beq h
      simp [List.lookup, h, hk]
    · have hne : k ≠ a := by
        intro hk
        rw [hk] at h
        exact h (by simp)
      simp [List.lookup, h, ih, hne]

/-- The index keys of File 2 are exactly the composite keys occurring in
some File 2 row. -/
theorem mem_index_keys_iff (df2 : Table) (kcols : List String)
    (k : List String)
    (h2 : ∀ c ∈ kcols, df2.columns.contains c) :
    k ∈ (build_key_to_row_index df2 kcols).map Prod.fst ↔
      ∃ i < df2.rows.length, row_key df2 kcols i = k := by
  rw [← lookup_isSome_iff_mem_map_fst,
    build_key_to_row_index_lookup_eq df2 kcols k h2, List.find?_isSome]
  constructor
  · rintro ⟨i, hi, hp⟩
    exact ⟨i, List.mem_range.mp hi, eq_of_beq hp⟩
  · rintro ⟨i, hi, hp⟩
    exact ⟨i, List.mem_range.mpr hi, by rw [hp]; simp⟩

/-- The File 1 key set contains exactly the composite keys occurring in some
File 1 row. -/
theorem mem_keys_in_file1_iff (df1 : Table) (kcols : List String)
    (k : List String) :
    k ∈ keys_in_file1_of df1 kcols ↔
      ∃ i < df1.rows.length, row_key df1 kcols i = k := by
  simp [keys_in_file1_of, List.mem_dedup, List.mem_map, List.mem_range]

/-- C9: the reported keys-only lists are the pure set differences over the
full normalized composite-key universes of the two tables, rendered through
the Python tuple representation and ascending-sorted: a rendering is in
`keys_only_in_file1` iff its key occurs in some File 1 row and in no File 2
row, and symmetrically for `keys_only_in_file2`. -/
theorem c9_keys_only_sets
    (df1 df2 : Table) (s1 s2 : String) (kcs : Option (List String))
    (h1 : ∀ c ∈ effective_key_columns kcs, df1.columns.contains c)
    (h2 : ∀ c ∈ effective_key_columns kcs, df2.columns.contains c) :
    (∀ s, s ∈ (compare_excel_files df1 df2 s1 s2 kcs).keys_only_in_file1 ↔
      ∃ k, s = pyTupleRepr k ∧
        (∃ i < df1.rows.length, row_key df1 (effective_key_columns kcs) i = k) ∧
        ∀ i2 < df2.rows.length, row_key df2 (effective_key_columns kcs) i2 ≠ k) ∧
    (∀ s, s ∈ (compare_excel_files df1 df2 s1 s2 kcs).keys_only_in_file2 ↔
      ∃ k, s = pyTupleRepr k ∧
        (∃ i2 < df2.rows.length, row_key df2 (effective_key_columns kcs) i2 = k) ∧
        ∀ i < df1.rows.length, row_key df1 (effective_key_columns kcs) i ≠ k) ∧
    List.Sorted pyStrLe (compare_excel_files df1 df2 s1 s2 kcs).keys_only_in_file1 ∧
    List.Sorted pyStrLe (compare_excel_files df1 df2 s1 s2 kcs).keys_only_in_file2 := by
  rw [compare_excel_files_ok df1 df2 s1 s2 kcs h1 h2,
    compare_body_keys_only_in_file1, compare_body_keys_only_in_file2]
  refine ⟨?_, ?_, ?_, ?_⟩
  · intro s
    simp only [pySorted, List.mem_insertionSort, List.mem_map, List.mem_filter]
    constructor
    · rintro ⟨k, ⟨hk1, hk2⟩, rfl⟩
      refine ⟨k, rfl, (mem_keys_in_file1_iff df1 _ k).mp hk1, ?_⟩
      intro i2 hi2 hkk
      have hmem : k ∈ (build_key_to_row_index df2 (effective_key_columns kcs)).map Prod.fst :=
        (mem_index_keys_iff df2 _ k h2).mpr ⟨i2, hi2, hkk⟩
      simp [hmem] at hk2
    · rintro ⟨k, rfl, hex, hall⟩
      refine ⟨k, ⟨(mem_keys_in_file1_iff df1 _ k).mpr hex, ?_⟩, rfl⟩
      have hnot : k ∉ (build_key_to_row_index df2 (effective_key_columns kcs)).map Prod.fst := by
        intro hmem
        obtain ⟨i2, hi2, hkk⟩ := (mem_index_keys_iff df2 _ k h2).mp hmem
        exact hall i2 hi2 hkk
      simp [hnot]
  · intro s
    simp only [pySorted, List.mem_insertionSort, List.mem_map, List.mem_filter]
    constructor
    · rintro ⟨k, ⟨hk1, hk2⟩, rfl⟩
      refine ⟨k, rfl, (mem_index_keys_iff df2 _ k h2).mp (List.mem_map.mpr hk1), ?_⟩
      intro i hi hkk
      have hmem : k ∈ keys_in_file1_of df1 (effective_key_columns kcs) :=
        (mem_keys_in_file1_iff df1 _ k).mpr ⟨i, hi, hkk⟩
      simp [hmem] at hk2
    · rintro ⟨k, rfl, hex, hall⟩
      refine ⟨k, ⟨List.mem_map.mp ((mem_index_keys_iff df2 _ k h2).mpr hex), ?_⟩, rfl⟩
      have hnot : k ∉ keys_in_file1_of df1 (effective_key_columns kcs) := by
        intro hmem
        obtain ⟨i, hi, hkk⟩ := (mem_keys_in_file1_iff df1 _ k).mp hmem
        exact hall i hi hkk
      simp [hnot]
  · exact List.sorted_insertionSort pyStrLe _
  · exact List.sorted_insertionSort pyStrLe _

/-- Witness for C9: File 1 has one key, File 2 none, and the key renders into
`keys_only_in_file1`. -/
theorem c9_keys_only_sets_witness :
    (∀ s, s ∈ (compare_excel_files sampleA sampleBEmpty "Sheet1" "Sheet1" none).keys_only_in_file1 ↔
      ∃ k, s = pyTupleRepr k ∧
        (∃ i < sampleA.rows.length, row_key sampleA (effective_key_columns none) i = k) ∧
        ∀ i2 < sampleBEmpty.rows.length, row_key sampleBEmpty (effective_key_columns none) i2 ≠ k) ∧
    (∀ s, s ∈ (compare_excel_files sampleA sampleBEmpty "Sheet1" "Sheet1" none).keys_only_in_file2 ↔
      ∃ k, s = pyTupleRepr k ∧
        (∃ i2 < sampleBEmpty.rows.length, row_key sampleBEmpty (effective_key_columns none) i2 = k) ∧
        ∀ i < sampleA.rows.length, row_key sampleA (effective_key_columns none) i ≠ k) ∧
    List.Sorted pyStrLe (compare_excel_files sampleA sampleBEmpty "Sheet1" "Sheet1" none).keys_only_in_file1 ∧
    List.Sorted pyStrLe (compare_excel_files sampleA sampleBEmpty "Sheet1" "Sheet1" none).keys_only_in_file2 :=
  c9_keys_only_sets sampleA sampleBEmpty "Sheet1" "Sheet1" none (by decide) (by decide)

end ExcelCompare
